import Mathlib

/-!
Verification of the axios-based admin API client of this repository.

The repository contains three variants of the frontend client module:
  * `src/frontend/src/api.js`        (namespace `ApiJs` below)
  * `src/unnamed/part_001`           (namespace `Part001` below)
  * `src/unnamed/part_002`           (namespace `Part002` below)
Each module creates one axios instance at module level and exports arrow
functions that call `get`/`post`/`put`/`delete` on a named module binding.
We embed the modules shallowly: an axios instance is a record of its
configuration, a wrapper is a record of its source text (the binding name
it references, the HTTP method, the path template, whether it forwards a
data payload), and calling a wrapper resolves the binding in the module
scope, failing with a ReferenceError when the name is unbound, exactly as
JavaScript would.
-/

/-- HTTP method used by a wrapper. -/
inductive Method where
  | GET
  | POST
  | PUT
  | DELETE
deriving DecidableEq

/-- A JavaScript runtime error relevant to these modules: referencing an
unbound identifier. -/
inductive JsError where
  | referenceError (name : String)
deriving DecidableEq

/-- Configuration of an axios instance as created by `axios.create`.
`baseURL` is `none` when the configured value is `undefined` (axios then
uses the request path as-is); `withCredentials` defaults to `false` in
axios when not supplied. -/
structure AxiosInstance where
  baseURL : Option String
  withCredentials : Bool
deriving DecidableEq

/-- The request an axios call constructs: method, instance base URL, the
relative path passed to the call, the optional JSON body, and the
credential/header configuration inherited from the instance.  None of the
wrappers in this repository pass extra headers, so `headers` lists exactly
the headers added by the wrapper (always `[]` here). -/
structure Request where
  method : Method
  baseURL : Option String
  path : String
  body : Option String
  withCredentials : Bool
  headers : List (String × String)
deriving DecidableEq

/-- Drop leading '/' characters from a character list (the relative-URL
normalisation inside axios `combineURLs`). -/
def dropSlashes : List Char → List Char
  | [] => []
  | c :: cs => if c = '/' then dropSlashes cs else c :: cs

/-- Strip leading slashes from a string. -/
def stripLeadingSlashes (s : String) : String :=
  ⟨dropSlashes s.data⟩

/-- Strip trailing slashes from a string. -/
def stripTrailingSlashes (s : String) : String :=
  ⟨(dropSlashes s.data.reverse).reverse⟩

/-- axios `combineURLs`: join a base URL and a relative URL, collapsing
the slashes at the joint; an empty relative URL yields the base alone. -/
def combineURLs (base rel : String) : String :=
  if rel = "" then base
  else stripTrailingSlashes base ++ "/" ++ stripLeadingSlashes rel

/-- The full URL a request resolves to: the path alone when the instance
has no base URL, otherwise the axios combination of base and path. -/
def Request.fullUrl (r : Request) : String :=
  match r.baseURL with
  | none => r.path
  | some b => combineURLs b r.path

/-- Build the request for a call `instance.method(path, data?)`. -/
def AxiosInstance.request (a : AxiosInstance) (m : Method) (p : String)
    (body : Option String) : Request :=
  { method := m, baseURL := a.baseURL, path := p, body := body,
    withCredentials := a.withCredentials, headers := [] }

/-- Module-level bindings holding axios instances. -/
abbrev Scope := List (String × AxiosInstance)

/-- Resolve a name in the module scope. -/
def Scope.resolve : Scope → String → Option AxiosInstance
  | [], _ => none
  | (n, a) :: rest, x => if n = x then some a else Scope.resolve rest x

/-- Argument signature of an exported arrow function, transcribed from its
parameter list in the source. -/
inductive ArgSig where
  | unit
  | dataOnly
  | idData
  | idOnly
deriving DecidableEq

/-- Path argument of an axios call: either a string literal or a template
literal consisting of a literal prefix followed by the id parameter. -/
inductive PathTemplate where
  | lit (s : String)
  | withId (pre : String)
deriving DecidableEq

/-- Render a path template at a given id. -/
def PathTemplate.render : PathTemplate → String → String
  | .lit s, _ => s
  | .withId pre, id => pre ++ id

/-- The literal part of a path template. -/
def PathTemplate.base : PathTemplate → String
  | .lit s => s
  | .withId pre => pre

/-- A statement a wrapper body could run before its call expression.  The
only scope-affecting statement form relevant here is reassignment of a
module binding; the wrappers in this repository contain none. -/
inductive JsStmt where
  | assignBinding (name : String) (value : AxiosInstance)
deriving DecidableEq

/-- Run the statements of a body over the module scope. -/
def runStmts (s : Scope) : List JsStmt → Scope
  | [] => s
  | .assignBinding n v :: rest => runStmts ((n, v) :: s) rest

/-- An exported arrow function, transcribed from the source: its parameter
signature, the statements before its call expression (none in this source),
the module binding its body references, the HTTP method of the call, the
path argument, and whether the data parameter is forwarded as the body. -/
structure JsFun where
  sig : ArgSig
  stmts : List JsStmt
  callee : String
  method : Method
  path : PathTemplate
  passesData : Bool
deriving DecidableEq

/-- Call an exported function with (possibly unused) id and data arguments
in a given module scope.  Returns the result of the body's call expression
together with the module scope after the call: a ReferenceError when the
referenced binding is unbound, otherwise the request the axios instance
constructs. -/
def JsFun.call (f : JsFun) (s : Scope) (id data : String) :
    Except JsError Request × Scope :=
  let s' := runStmts s f.stmts
  match s'.resolve f.callee with
  | none => (.error (.referenceError f.callee), s')
  | some a =>
      (.ok (a.request f.method (f.path.render id)
        (if f.passesData then some data else none)), s')

namespace ApiJs

/-- `const API_URL = process.env.REACT_APP_API_URL || "http://localhost:8000";`
The environment variable is `none` when unset. -/
def API_URL (env : Option String) : String :=
  match env with
  | some u => u
  | none => "http://localhost:8000"

/-- `const api = axios.create({ baseURL: API_URL + "/api", withCredentials: false });` -/
def api (env : Option String) : AxiosInstance :=
  { baseURL := some (API_URL env ++ "/api"), withCredentials := false }

/-- The module scope of api.js: the only axios-instance binding is `api`
(`API_URL` is a string constant, not an axios instance, and no binding
named `API` exists in this module). -/
def moduleScope (env : Option String) : Scope :=
  [("api", api env)]

def fetchTeam : JsFun :=
  { sig := .unit, stmts := [], callee := "api", method := .GET,
    path := .lit "/admin/team", passesData := false }

def addTeamMember : JsFun :=
  { sig := .dataOnly, stmts := [], callee := "api", method := .POST,
    path := .lit "/admin/team", passesData := true }

def updateTeamMember : JsFun :=
  { sig := .idData, stmts := [], callee := "api", method := .PUT,
    path := .withId "/admin/team/", passesData := true }

def deleteTeamMember : JsFun :=
  { sig := .idOnly, stmts := [], callee := "api", method := .DELETE,
    path := .withId "/admin/team/", passesData := false }

def fetchSiteSettings : JsFun :=
  { sig := .unit, stmts := [], callee := "api", method := .GET,
    path := .lit "/admin/site-settings", passesData := false }

def updateSiteSettings : JsFun :=
  { sig := .dataOnly, stmts := [], callee := "api", method := .PUT,
    path := .lit "/admin/site-settings", passesData := true }

def fetchVehicles : JsFun :=
  { sig := .unit, stmts := [], callee := "api", method := .GET,
    path := .lit "/admin/vehicles", passesData := false }

def createVehicle : JsFun :=
  { sig := .dataOnly, stmts := [], callee := "api", method := .POST,
    path := .lit "/admin/vehicles", passesData := true }

def updateVehicle : JsFun :=
  { sig := .idData, stmts := [], callee := "api", method := .PUT,
    path := .withId "/admin/vehicles/", passesData := true }

def deleteVehicle : JsFun :=
  { sig := .idOnly, stmts := [], callee := "api", method := .DELETE,
    path := .withId "/admin/vehicles/", passesData := false }

def fetchBlogs : JsFun :=
  { sig := .unit, stmts := [], callee := "api", method := .GET,
    path := .lit "/admin/blogs", passesData := false }

def createBlog : JsFun :=
  { sig := .dataOnly, stmts := [], callee := "api", method := .POST,
    path := .lit "/admin/blogs", passesData := true }

def updateBlog : JsFun :=
  { sig := .idData, stmts := [], callee := "api", method := .PUT,
    path := .withId "/admin/blogs/", passesData := true }

def deleteBlog : JsFun :=
  { sig := .idOnly, stmts := [], callee := "api", method := .DELETE,
    path := .withId "/admin/blogs/", passesData := false }

/-- `export const fetchPackages = () => API.get("/packages");` — note the
callee `API` and the path `/packages`, exactly as in the source. -/
def fetchPackages : JsFun :=
  { sig := .unit, stmts := [], callee := "API", method := .GET,
    path := .lit "/packages", passesData := false }

def createPackage : JsFun :=
  { sig := .dataOnly, stmts := [], callee := "API", method := .POST,
    path := .lit "/admin/packages", passesData := true }

def updatePackage : JsFun :=
  { sig := .idData, stmts := [], callee := "API", method := .PUT,
    path := .withId "/admin/packages/", passesData := true }

def deletePackage : JsFun :=
  { sig := .idOnly, stmts := [], callee := "API", method := .DELETE,
    path := .withId "/admin/packages/", passesData := false }

/-- The export list of api.js, in source order. -/
def exports : List (String × JsFun) :=
  [("fetchTeam", fetchTeam), ("addTeamMember", addTeamMember),
   ("updateTeamMember", updateTeamMember), ("deleteTeamMember", deleteTeamMember),
   ("fetchSiteSettings", fetchSiteSettings), ("updateSiteSettings", updateSiteSettings),
   ("fetchVehicles", fetchVehicles), ("createVehicle", createVehicle),
   ("updateVehicle", updateVehicle), ("deleteVehicle", deleteVehicle),
   ("fetchBlogs", fetchBlogs), ("createBlog", createBlog),
   ("updateBlog", updateBlog), ("deleteBlog", deleteBlog),
   ("fetchPackages", fetchPackages), ("createPackage", createPackage),
   ("updatePackage", updatePackage), ("deletePackage", deletePackage)]

/-- Invoke an export of api.js under environment `env`. -/
def call (env : Option String) (f : JsFun) (id data : String) :
    Except JsError Request × Scope :=
  f.call (moduleScope env) id data

end ApiJs

namespace Part001

/-- `const API = axios.create({ baseURL: process.env.REACT_APP_BACKEND_URL });`
No fallback: when unset, the base URL is `undefined`.  `withCredentials`
is not configured, so it takes the axios default `false`. -/
def API (env : Option String) : AxiosInstance :=
  { baseURL := env, withCredentials := false }

/-- The module scope of part_001: the single binding `API`. -/
def moduleScope (env : Option String) : Scope :=
  [("API", API env)]

def fetchTeam : JsFun :=
  { sig := .unit, stmts := [], callee := "API", method := .GET,
    path := .lit "/api/admin/team", passesData := false }

def addTeamMember : JsFun :=
  { sig := .dataOnly, stmts := [], callee := "API", method := .POST,
    path := .lit "/api/admin/team", passesData := true }

def updateTeamMember : JsFun :=
  { sig := .idData, stmts := [], callee := "API", method := .PUT,
    path := .withId "/api/admin/team/", passesData := true }

def deleteTeamMember : JsFun :=
  { sig := .idOnly, stmts := [], callee := "API", method := .DELETE,
    path := .withId "/api/admin/team/", passesData := false }

def fetchSiteSettings : JsFun :=
  { sig := .unit, stmts := [], callee := "API", method := .GET,
    path := .lit "/api/admin/site-settings", passesData := false }

def updateSiteSettings : JsFun :=
  { sig := .dataOnly, stmts := [], callee := "API", method := .PUT,
    path := .lit "/api/admin/site-settings", passesData := true }

def fetchVehicles : JsFun :=
  { sig := .unit, stmts := [], callee := "API", method := .GET,
    path := .lit "/api/admin/vehicles", passesData := false }

def createVehicle : JsFun :=
  { sig := .dataOnly, stmts := [], callee := "API", method := .POST,
    path := .lit "/api/admin/vehicles", passesData := true }

def updateVehicle : JsFun :=
  { sig := .idData, stmts := [], callee := "API", method := .PUT,
    path := .withId "/api/admin/vehicles/", passesData := true }

def deleteVehicle : JsFun :=
  { sig := .idOnly, stmts := [], callee := "API", method := .DELETE,
    path := .withId "/api/admin/vehicles/", passesData := false }

def fetchBlogs : JsFun :=
  { sig := .unit, stmts := [], callee := "API", method := .GET,
    path := .lit "/api/admin/blogs", passesData := false }

def createBlog : JsFun :=
  { sig := .dataOnly, stmts := [], callee := "API", method := .POST,
    path := .lit "/api/admin/blogs", passesData := true }

def updateBlog : JsFun :=
  { sig := .idData, stmts := [], callee := "API", method := .PUT,
    path := .withId "/api/admin/blogs/", passesData := true }

def deleteBlog : JsFun :=
  { sig := .idOnly, stmts := [], callee := "API", method := .DELETE,
    path := .withId "/api/admin/blogs/", passesData := false }

/-- The export list of part_001, in source order (no package functions). -/
def exports : List (String × JsFun) :=
  [("fetchTeam", fetchTeam), ("addTeamMember", addTeamMember),
   ("updateTeamMember", updateTeamMember), ("deleteTeamMember", deleteTeamMember),
   ("fetchSiteSettings", fetchSiteSettings), ("updateSiteSettings", updateSiteSettings),
   ("fetchVehicles", fetchVehicles), ("createVehicle", createVehicle),
   ("updateVehicle", updateVehicle), ("deleteVehicle", deleteVehicle),
   ("fetchBlogs", fetchBlogs), ("createBlog", createBlog),
   ("updateBlog", updateBlog), ("deleteBlog", deleteBlog)]

/-- Invoke an export of part_001 under environment `env`
(`REACT_APP_BACKEND_URL`). -/
def call (env : Option String) (f : JsFun) (id data : String) :
    Except JsError Request × Scope :=
  f.call (moduleScope env) id data

end Part001

namespace Part002

/-- `const API_URL = process.env.REACT_APP_API_URL || "http://localhost:8000";` -/
def API_URL (env : Option String) : String :=
  match env with
  | some u => u
  | none => "http://localhost:8000"

/-- `const api = axios.create({ baseURL: API_URL + "/api", withCredentials: false });` -/
def api (env : Option String) : AxiosInstance :=
  { baseURL := some (API_URL env ++ "/api"), withCredentials := false }

/-- The module scope of part_002: the instance is bound to `api`; every
exported function below references `API`, which is unbound here. -/
def moduleScope (env : Option String) : Scope :=
  [("api", api env)]

def fetchTeam : JsFun :=
  { sig := .unit, stmts := [], callee := "API", method := .GET,
    path := .lit "/api/admin/team", passesData := false }

def addTeamMember : JsFun :=
  { sig := .dataOnly, stmts := [], callee := "API", method := .POST,
    path := .lit "/api/admin/team", passesData := true }

def updateTeamMember : JsFun :=
  { sig := .idData, stmts := [], callee := "API", method := .PUT,
    path := .withId "/api/admin/team/", passesData := true }

def deleteTeamMember : JsFun :=
  { sig := .idOnly, stmts := [], callee := "API", method := .DELETE,
    path := .withId "/api/admin/team/", passesData := false }

def fetchSiteSettings : JsFun :=
  { sig := .unit, stmts := [], callee := "API", method := .GET,
    path := .lit "/api/admin/site-settings", passesData := false }

def updateSiteSettings : JsFun :=
  { sig := .dataOnly, stmts := [], callee := "API", method := .PUT,
    path := .lit "/api/admin/site-settings", passesData := true }

def fetchVehicles : JsFun :=
  { sig := .unit, stmts := [], callee := "API", method := .GET,
    path := .lit "/api/admin/vehicles", passesData := false }

def createVehicle : JsFun :=
  { sig := .dataOnly, stmts := [], callee := "API", method := .POST,
    path := .lit "/api/admin/vehicles", passesData := true }

def updateVehicle : JsFun :=
  { sig := .idData, stmts := [], callee := "API", method := .PUT,
    path := .withId "/api/admin/vehicles/", passesData := true }

def deleteVehicle : JsFun :=
  { sig := .idOnly, stmts := [], callee := "API", method := .DELETE,
    path := .withId "/api/admin/vehicles/", passesData := false }

def fetchBlogs : JsFun :=
  { sig := .unit, stmts := [], callee := "API", method := .GET,
    path := .lit "/api/admin/blogs", passesData := false }

def createBlog : JsFun :=
  { sig := .dataOnly, stmts := [], callee := "API", method := .POST,
    path := .lit "/api/admin/blogs", passesData := true }

def updateBlog : JsFun :=
  { sig := .idData, stmts := [], callee := "API", method := .PUT,
    path := .withId "/api/admin/blogs/", passesData := true }

def deleteBlog : JsFun :=
  { sig := .idOnly, stmts := [], callee := "API", method := .DELETE,
    path := .withId "/api/admin/blogs/", passesData := false }

/-- The export list of part_002, in source order. -/
def exports : List (String × JsFun) :=
  [("fetchTeam", fetchTeam), ("addTeamMember", addTeamMember),
   ("updateTeamMember", updateTeamMember), ("deleteTeamMember", deleteTeamMember),
   ("fetchSiteSettings", fetchSiteSettings), ("updateSiteSettings", updateSiteSettings),
   ("fetchVehicles", fetchVehicles), ("createVehicle", createVehicle),
   ("updateVehicle", updateVehicle), ("deleteVehicle", deleteVehicle),
   ("fetchBlogs", fetchBlogs), ("createBlog", createBlog),
   ("updateBlog", updateBlog), ("deleteBlog", deleteBlog)]

/-- Invoke an export of part_002 under environment `env`. -/
def call (env : Option String) (f : JsFun) (id data : String) :
    Except JsError Request × Scope :=
  f.call (moduleScope env) id data

end Part002

namespace Backend

/-- Modelled from the spec: the FastAPI backend (Credential Issuer,
Authorization Middleware, resource controllers, persistence adapter) is
not part of the source tree — only the frontend client, a Dockerfile and
the deployment guide are.  Per spec section 3, a Session/Token carries a
subject, issued-at, expiry and signature, is stateless, and its validity
is determined by signature and expiry check alone. -/
structure Token where
  subject : String
  issuedAt : Nat
  expiry : Nat
  signature : Nat
deriving DecidableEq

/-- Modelled from the spec: the HS256 signature over the token claims
under the configured secret (`SECRET_KEY`).  The MAC itself is abstracted
as a concrete injective-enough tagging function of the secret and the
claims; the middleware only ever compares signatures for equality. -/
def signClaims (secret : Nat) (subject : String) (issuedAt expiry : Nat) : Nat :=
  (secret + 1) * (2 ^ issuedAt) * (3 ^ expiry) * (5 ^ subject.length) + 7

/-- Modelled from the spec (section 4.2): the Authorization Middleware
verifies the signature using the configured secret and checks expiry; a
missing, invalid or expired token is rejected. -/
def tokenValid (secret now : Nat) (tok : Option Token) : Bool :=
  match tok with
  | none => false
  | some t =>
      (t.signature == signClaims secret t.subject t.issuedAt t.expiry)
        && (now < t.expiry)

/-- A resource document: a flat list of named fields. -/
abbrev Doc := List (String × String)

/-- Modelled from the spec (section 4.4): the persistence adapter exposes
named collections of identified documents; a counter supplies generated
identifiers. -/
structure Store where
  collections : List (String × List (Nat × Doc))
  nextId : Nat
deriving DecidableEq

/-- The documents of one collection. -/
def Store.collection (st : Store) (res : String) : List (Nat × Doc) :=
  match st.collections.lookup res with
  | some docs => docs
  | none => []

/-- Replace the documents of one collection. -/
def Store.setCollection (st : Store) (res : String) (docs : List (Nat × Doc)) :
    Store :=
  { st with
    collections :=
      (res, docs) :: st.collections.filter (fun p => !(p.1 == res)) }

/-- An admin resource operation (spec section 4.3: list, create,
update(id), delete(id)). -/
inductive AdminOp where
  | listOp (res : String)
  | createOp (res : String) (d : Doc)
  | updateOp (res : String) (id : Nat) (d : Doc)
  | deleteOp (res : String) (id : Nat)
deriving DecidableEq

/-- Whether the operation mutates the store. -/
def AdminOp.isMutating : AdminOp → Bool
  | .listOp _ => false
  | _ => true

/-- HTTP-level outcome of a request (spec section 7 taxonomy). -/
inductive Response where
  | okResp (docs : List (Nat × Doc))
  | createdResp (id : Nat)
  | deletedResp
  | authError
  | validationError
  | notFoundError
deriving DecidableEq

/-- Modelled from the spec (section 4.3): per-resource required-field
validation of a create payload, abstracted as requiring at least one
field. -/
def validatePayload (d : Doc) : Bool :=
  !d.isEmpty

/-- Merge updated fields into a document (update semantics: "merges
provided fields and persists"). -/
def mergeFields (old upd : Doc) : Doc :=
  upd ++ old.filter (fun p => !(upd.lookup p.1).isSome)

/-- Modelled from the spec (section 4.3): the controller behaviour of one
operation over the store, after authorization has succeeded. -/
def applyOp (op : AdminOp) (st : Store) : Response × Store :=
  match op with
  | .listOp res => (.okResp (st.collection res), st)
  | .createOp res d =>
      if validatePayload d then
        (.createdResp st.nextId,
         { (st.setCollection res (st.collection res ++ [(st.nextId, d)])) with
           nextId := st.nextId + 1 })
      else (.validationError, st)
  | .updateOp res id d =>
      match (st.collection res).lookup id with
      | none => (.notFoundError, st)
      | some old =>
          (.okResp [(id, mergeFields old d)],
           st.setCollection res
             ((st.collection res).map
               (fun p => if p.1 = id then (id, mergeFields old d) else p)))
  | .deleteOp res id =>
      match (st.collection res).lookup id with
      | none => (.notFoundError, st)
      | some _ =>
          (.deletedResp,
           st.setCollection res
             ((st.collection res).filter (fun p => !(p.1 == id))))

/-- Modelled from the spec (sections 3 and 4.2): an admin request runs the
Authorization Middleware before the controller; a mutating operation whose
token fails signature or expiry validation is rejected with an
authentication error before the controller executes. -/
def handleAdmin (secret now : Nat) (tok : Option Token) (op : AdminOp)
    (st : Store) : Response × Store :=
  if op.isMutating && !(tokenValid secret now tok) then (.authError, st)
  else applyOp op st

end Backend

deriving instance DecidableEq for Except

/-- A call outcome is a successfully constructed request with the given
method and full URL. -/
def issues (res : Except JsError Request × Scope) (m : Method) (u : String) :
    Prop :=
  ∃ r, res.1 = Except.ok r ∧ r.method = m ∧ r.fullUrl = u

/-- Two call outcomes both construct requests, with the same method and
the same full URL. -/
def sameRequestLine (x y : Except JsError Request) : Prop :=
  ∃ r s, x = Except.ok r ∧ y = Except.ok s
    ∧ r.method = s.method ∧ r.fullUrl = s.fullUrl

/-- The operations an export list offers against a given route: the name,
argument signature and HTTP method of every export whose path-template
literal part is one of the two given route strings (the collection route
and the by-id route). -/
def opsFor (exps : List (String × JsFun)) (base1 base2 : String) :
    List (String × ArgSig × Method) :=
  (exps.filter
      (fun nf => nf.2.path.base == base1 || nf.2.path.base == base2)).map
    (fun nf => (nf.1, nf.2.sig, nf.2.method))

/-- The route literals of every export, in export order. -/
def routeBases (exps : List (String × JsFun)) : List String :=
  exps.map (fun nf => nf.2.path.base)

/-! URL-arithmetic lemmas about `combineURLs` and the slash-stripping
helpers, used to compute full request URLs with a symbolic origin and a
symbolic identifier. -/

theorem dropSlashes_append (l₁ l₂ : List Char) (h : dropSlashes l₁ ≠ []) :
    dropSlashes (l₁ ++ l₂) = dropSlashes l₁ ++ l₂ := by
  induction l₁ with
  | nil => exact absurd rfl h
  | cons c cs ih =>
      by_cases hc : c = '/'
      · subst hc
        rw [List.cons_append]
        show dropSlashes ('/' :: (cs ++ l₂)) = dropSlashes ('/' :: cs) ++ l₂
        simp only [dropSlashes, if_pos rfl]
        exact ih (by simpa [dropSlashes] using h)
      · rw [List.cons_append]
        simp only [dropSlashes, if_neg hc]
        rfl

theorem stripLead_append (p t : String) (h : dropSlashes p.data ≠ []) :
    stripLeadingSlashes (p ++ t) = stripLeadingSlashes p ++ t := by
  apply String.ext
  show dropSlashes (p.data ++ t.data) = dropSlashes p.data ++ t.data
  exact dropSlashes_append _ _ h

theorem stripTrail_append (p t : String) (h : dropSlashes t.data.reverse ≠ []) :
    stripTrailingSlashes (p ++ t) = p ++ stripTrailingSlashes t := by
  apply String.ext
  show (dropSlashes (p.data ++ t.data).reverse).reverse
      = p.data ++ (dropSlashes t.data.reverse).reverse
  rw [List.reverse_append, dropSlashes_append _ _ h, List.reverse_append,
    List.reverse_reverse]

theorem stripTrail_base_api (o : String) :
    stripTrailingSlashes (o ++ "/api") = o ++ "/api" := by
  rw [stripTrail_append o "/api" (by decide)]
  have h : stripTrailingSlashes "/api" = "/api" := by decide
  rw [h]

theorem append_ne_empty_left (p t : String) (h : p.data ≠ []) : p ++ t ≠ "" := by
  intro hc
  apply h
  have hd : p.data ++ t.data = [] := by
    simpa using congrArg String.data hc
  exact (List.append_eq_nil.mp hd).1

theorem combineURLs_eq (b p : String) (hp : p ≠ "")
    (hb : stripTrailingSlashes b = b) :
    combineURLs b p = b ++ "/" ++ stripLeadingSlashes p := by
  rw [combineURLs, if_neg hp, hb]

theorem append_lit_append (a b c : String) (h : a ++ b = c) (t : String) :
    a ++ (b ++ t) = c ++ t := by
  rw [← String.append_assoc, h]

theorem combine_api_lit (o p q : String) (hp : p ≠ "")
    (hq : "/api/" ++ stripLeadingSlashes p = q) :
    combineURLs (o ++ "/api") p = o ++ q := by
  rw [combineURLs_eq _ _ hp (stripTrail_base_api o), String.append_assoc,
    String.append_assoc, ← String.append_assoc "/api" "/"]
  have h4 : "/api" ++ "/" = "/api/" := by decide
  rw [h4, hq]

theorem combine_api_withId (o pre t q : String)
    (h1 : dropSlashes pre.data ≠ [])
    (h2 : "/api/" ++ stripLeadingSlashes pre = q) :
    combineURLs (o ++ "/api") (pre ++ t) = o ++ (q ++ t) := by
  have hne : pre ++ t ≠ "" := by
    apply append_ne_empty_left
    intro hp
    exact h1 (by rw [hp]; rfl)
  rw [combine_api_lit o (pre ++ t) (q ++ t) hne ?_]
  rw [stripLead_append _ _ h1, ← String.append_assoc, h2]

theorem combine_bare_lit (o p q : String) (hp : p ≠ "")
    (ho : stripTrailingSlashes o = o)
    (hq : "/" ++ stripLeadingSlashes p = q) :
    combineURLs o p = o ++ q := by
  rw [combineURLs_eq _ _ hp ho, String.append_assoc, hq]

theorem combine_bare_withId (o pre t q : String)
    (h1 : dropSlashes pre.data ≠ [])
    (ho : stripTrailingSlashes o = o)
    (h2 : "/" ++ stripLeadingSlashes pre = q) :
    combineURLs o (pre ++ t) = o ++ (q ++ t) := by
  have hne : pre ++ t ≠ "" := by
    apply append_ne_empty_left
    intro hp
    exact h1 (by rw [hp]; rfl)
  rw [combine_bare_lit o (pre ++ t) (q ++ t) hne ho ?_]
  rw [stripLead_append _ _ h1, ← String.append_assoc, h2]

theorem string_append_right_ne (o a b : String) (h : ¬ a = b) :
    ¬ (o ++ a = o ++ b) := by
  intro hc
  apply h
  apply String.ext
  exact List.append_cancel_left
    (show o.data ++ a.data = o.data ++ b.data by
      simpa using congrArg String.data hc)

theorem append_fixed_ne (pre x q : String) (i : Nat)
    (hi : i < pre.data.length)
    (h : pre.data[i]? ≠ q.data[i]?) : ¬ (pre ++ x = q) := by
  intro hc
  apply h
  have hd : pre.data ++ x.data = q.data := by
    simpa using congrArg String.data hc
  rw [← hd, List.getElem?_append_left hi]

theorem string_append_left_cancel (o a b : String) (h : o ++ a = o ++ b) :
    a = b := by
  apply String.ext
  exact List.append_cancel_left
    (show o.data ++ a.data = o.data ++ b.data by
      simpa using congrArg String.data h)

theorem combineURLs_cancel (b p q : String) (hp : p ≠ "") (hq : q ≠ "")
    (h : ¬ stripLeadingSlashes p = stripLeadingSlashes q) :
    ¬ (combineURLs b p = combineURLs b q) := by
  intro hc
  apply h
  rw [combineURLs, if_neg hp, combineURLs, if_neg hq] at hc
  exact string_append_left_cancel (stripTrailingSlashes b ++ "/") _ _ hc

theorem split_append (a b c d t : String) (h : a ++ b = c ++ d) :
    a ++ (b ++ t) = c ++ (d ++ t) := by
  rw [← String.append_assoc, ← String.append_assoc, h]

/-! Evaluation lemmas: what a call to an exported wrapper of each module
reduces to, for a symbolic environment. -/

theorem ApiJs.call_api_resolves (env : Option String) (f : JsFun)
    (hc : f.callee = "api") (hs : f.stmts = []) (id d : String) :
    ApiJs.call env f id d =
      (.ok ((ApiJs.api env).request f.method (f.path.render id)
        (if f.passesData then some d else none)), ApiJs.moduleScope env) := by
  simp [ApiJs.call, JsFun.call, hs, runStmts, ApiJs.moduleScope, Scope.resolve, hc]

theorem ApiJs.call_API_errors (env : Option String) (f : JsFun)
    (hc : f.callee = "API") (hs : f.stmts = []) (id d : String) :
    ApiJs.call env f id d =
      (.error (.referenceError "API"), ApiJs.moduleScope env) := by
  simp [ApiJs.call, JsFun.call, hs, runStmts, ApiJs.moduleScope, Scope.resolve, hc]

theorem Part001.call_API_resolves (env : Option String) (f : JsFun)
    (hc : f.callee = "API") (hs : f.stmts = []) (id d : String) :
    Part001.call env f id d =
      (.ok ((Part001.API env).request f.method (f.path.render id)
        (if f.passesData then some d else none)), Part001.moduleScope env) := by
  simp [Part001.call, JsFun.call, hs, runStmts, Part001.moduleScope,
    Scope.resolve, hc]

theorem Part002.call_errors (env : Option String) (f : JsFun)
    (hc : f.callee = "API") (hs : f.stmts = []) (id d : String) :
    Part002.call env f id d =
      (.error (.referenceError "API"), Part002.moduleScope env) := by
  simp [Part002.call, JsFun.call, hs, runStmts, Part002.moduleScope,
    Scope.resolve, hc]

theorem apiJs_issues_of (env : Option String) (f : JsFun) (id d : String)
    (hc : f.callee = "api") (hs : f.stmts = []) (u : String)
    (hu : combineURLs (ApiJs.API_URL env ++ "/api") (f.path.render id) = u) :
    issues (ApiJs.call env f id d) f.method u :=
  ⟨(ApiJs.api env).request f.method (f.path.render id)
      (if f.passesData then some d else none),
   by rw [ApiJs.call_api_resolves env f hc hs], rfl, hu⟩

theorem part001_issues_of (o : String) (f : JsFun) (id d : String)
    (hc : f.callee = "API") (hs : f.stmts = []) (u : String)
    (hu : combineURLs o (f.path.render id) = u) :
    issues (Part001.call (some o) f id d) f.method u :=
  ⟨(Part001.API (some o)).request f.method (f.path.render id)
      (if f.passesData then some d else none),
   by rw [Part001.call_API_resolves (some o) f hc hs], rfl, hu⟩

theorem same_line_of (o : String) (fa fb : JsFun) (id d : String)
    (hca : fa.callee = "api") (hsa : fa.stmts = [])
    (hcb : fb.callee = "API") (hsb : fb.stmts = [])
    (hm : fa.method = fb.method) (u : String)
    (hua : combineURLs (ApiJs.API_URL (some o) ++ "/api") (fa.path.render id) = u)
    (hub : combineURLs o (fb.path.render id) = u) :
    sameRequestLine (ApiJs.call (some o) fa id d).1
      (Part001.call (some o) fb id d).1 :=
  ⟨(ApiJs.api (some o)).request fa.method (fa.path.render id)
      (if fa.passesData then some d else none),
   (Part001.API (some o)).request fb.method (fb.path.render id)
      (if fb.passesData then some d else none),
   by rw [ApiJs.call_api_resolves (some o) fa hca hsa],
   by rw [Part001.call_API_resolves (some o) fb hcb hsb],
   hm, hua.trans hub.symm⟩

/-! Claim theorems. -/

/-- Claim C1: in src/frontend/src/api.js the axios instance is bound to
the lowercase name `api` while the package export statements reference the
differently-cased symbol `API`, and in src/unnamed/part_002 every exported
function references `API` while the instance is bound to `api`; therefore
every invocation of the package exports of api.js (fetchPackages,
createPackage, updatePackage, deletePackage), and of every exported
function of part_002, fails at runtime with a ReferenceError for the
unbound symbol `API`. -/
theorem claim_C1_unbound_API_calls_fail :
    (∀ env id d,
      (ApiJs.call env ApiJs.fetchPackages id d).1
          = Except.error (JsError.referenceError "API") ∧
      (ApiJs.call env ApiJs.createPackage id d).1
          = Except.error (JsError.referenceError "API") ∧
      (ApiJs.call env ApiJs.updatePackage id d).1
          = Except.error (JsError.referenceError "API") ∧
      (ApiJs.call env ApiJs.deletePackage id d).1
          = Except.error (JsError.referenceError "API")) ∧
    (∀ env nf, nf ∈ Part002.exports → ∀ id d,
      (Part002.call env nf.2 id d).1
          = Except.error (JsError.referenceError "API")) := by
  constructor
  · intro env id d
    refine ⟨?_, ?_, ?_, ?_⟩ <;> rw [ApiJs.call_API_errors env _ rfl rfl]
  · intro env nf hmem id d
    have h : nf.2.callee = "API" ∧ nf.2.stmts = [] := by
      fin_cases hmem <;> exact ⟨rfl, rfl⟩
    rw [Part002.call_errors env nf.2 h.1 h.2]

/-- Witness for C1 at a concrete environment, export and arguments. -/
theorem claim_C1_witness :
    (ApiJs.call none ApiJs.fetchPackages "" "").1
        = Except.error (JsError.referenceError "API") ∧
    (Part002.call none Part002.fetchTeam "id1" "d1").1
        = Except.error (JsError.referenceError "API") :=
  ⟨(claim_C1_unbound_API_calls_fail.1 none "" "").1,
   claim_C1_unbound_API_calls_fail.2 none ("fetchTeam", Part002.fetchTeam)
     (by decide) "id1" "d1"⟩

/-- Claim C2 counterexample: the package functions of api.js do not reach
/api/admin/packages — fetchPackages (cited by the claim as the list
function for the packages resource) constructs no request at all: it fails
with a ReferenceError for the unbound symbol `API`, so no GET request with
full path /api/admin/packages is issued. -/
theorem claim_C2_counterexample :
    ¬ ∃ r : Request,
      (ApiJs.call none ApiJs.fetchPackages "" "").1 = Except.ok r
        ∧ r.method = Method.GET
        ∧ r.fullUrl = "http://localhost:8000/api/admin/packages" := by
  intro hc
  obtain ⟨r, hr, -, -⟩ := hc
  rw [ApiJs.call_API_errors none _ rfl rfl] at hr
  exact Except.noConfusion hr

/-- Claim C2 as amended: for resource in team, vehicles, blogs the list and
create functions of both client variants issue GET and POST requests whose
full path under the backend origin is /api/admin/resource, and update and
delete issue PUT and DELETE to /api/admin/resource/id; site settings are
reached at GET/PUT /api/admin/site-settings.  For packages, however, the
api.js functions construct no request at all (the symbol `API` is unbound,
every call fails with a ReferenceError), and the path argument of
fetchPackages is "/packages", not an /admin path; part_001 has no package
functions. -/
theorem claim_C2_amended (o : String) (ho : stripTrailingSlashes o = o)
    (id d : String) :
    (issues (ApiJs.call (some o) ApiJs.fetchTeam id d) Method.GET
        (o ++ "/api/admin/team") ∧
     issues (ApiJs.call (some o) ApiJs.addTeamMember id d) Method.POST
        (o ++ "/api/admin/team") ∧
     issues (ApiJs.call (some o) ApiJs.updateTeamMember id d) Method.PUT
        (o ++ ("/api/admin/team/" ++ id)) ∧
     issues (ApiJs.call (some o) ApiJs.deleteTeamMember id d) Method.DELETE
        (o ++ ("/api/admin/team/" ++ id)) ∧
     issues (ApiJs.call (some o) ApiJs.fetchVehicles id d) Method.GET
        (o ++ "/api/admin/vehicles") ∧
     issues (ApiJs.call (some o) ApiJs.createVehicle id d) Method.POST
        (o ++ "/api/admin/vehicles") ∧
     issues (ApiJs.call (some o) ApiJs.updateVehicle id d) Method.PUT
        (o ++ ("/api/admin/vehicles/" ++ id)) ∧
     issues (ApiJs.call (some o) ApiJs.deleteVehicle id d) Method.DELETE
        (o ++ ("/api/admin/vehicles/" ++ id)) ∧
     issues (ApiJs.call (some o) ApiJs.fetchBlogs id d) Method.GET
        (o ++ "/api/admin/blogs") ∧
     issues (ApiJs.call (some o) ApiJs.createBlog id d) Method.POST
        (o ++ "/api/admin/blogs") ∧
     issues (ApiJs.call (some o) ApiJs.updateBlog id d) Method.PUT
        (o ++ ("/api/admin/blogs/" ++ id)) ∧
     issues (ApiJs.call (some o) ApiJs.deleteBlog id d) Method.DELETE
        (o ++ ("/api/admin/blogs/" ++ id)) ∧
     issues (ApiJs.call (some o) ApiJs.fetchSiteSettings id d) Method.GET
        (o ++ "/api/admin/site-settings") ∧
     issues (ApiJs.call (some o) ApiJs.updateSiteSettings id d) Method.PUT
        (o ++ "/api/admin/site-settings") ∧
     (ApiJs.call (some o) ApiJs.fetchPackages id d).1
        = Except.error (JsError.referenceError "API") ∧
     (ApiJs.call (some o) ApiJs.createPackage id d).1
        = Except.error (JsError.referenceError "API") ∧
     (ApiJs.call (some o) ApiJs.updatePackage id d).1
        = Except.error (JsError.referenceError "API") ∧
     (ApiJs.call (some o) ApiJs.deletePackage id d).1
        = Except.error (JsError.referenceError "API") ∧
     ApiJs.fetchPackages.path = PathTemplate.lit "/packages") ∧
    (issues (Part001.call (some o) Part001.fetchTeam id d) Method.GET
        (o ++ "/api/admin/team") ∧
     issues (Part001.call (some o) Part001.addTeamMember id d) Method.POST
        (o ++ "/api/admin/team") ∧
     issues (Part001.call (some o) Part001.updateTeamMember id d) Method.PUT
        (o ++ ("/api/admin/team/" ++ id)) ∧
     issues (Part001.call (some o) Part001.deleteTeamMember id d) Method.DELETE
        (o ++ ("/api/admin/team/" ++ id)) ∧
     issues (Part001.call (some o) Part001.fetchVehicles id d) Method.GET
        (o ++ "/api/admin/vehicles") ∧
     issues (Part001.call (some o) Part001.createVehicle id d) Method.POST
        (o ++ "/api/admin/vehicles") ∧
     issues (Part001.call (some o) Part001.updateVehicle id d) Method.PUT
        (o ++ ("/api/admin/vehicles/" ++ id)) ∧
     issues (Part001.call (some o) Part001.deleteVehicle id d) Method.DELETE
        (o ++ ("/api/admin/vehicles/" ++ id)) ∧
     issues (Part001.call (some o) Part001.fetchBlogs id d) Method.GET
        (o ++ "/api/admin/blogs") ∧
     issues (Part001.call (some o) Part001.createBlog id d) Method.POST
        (o ++ "/api/admin/blogs") ∧
     issues (Part001.call (some o) Part001.updateBlog id d) Method.PUT
        (o ++ ("/api/admin/blogs/" ++ id)) ∧
     issues (Part001.call (some o) Part001.deleteBlog id d) Method.DELETE
        (o ++ ("/api/admin/blogs/" ++ id)) ∧
     issues (Part001.call (some o) Part001.fetchSiteSettings id d) Method.GET
        (o ++ "/api/admin/site-settings") ∧
     issues (Part001.call (some o) Part001.updateSiteSettings id d) Method.PUT
        (o ++ "/api/admin/site-settings")) := by
  refine ⟨⟨?_, ?_, ?_, ?_, ?_, ?_, ?_, ?_, ?_, ?_, ?_, ?_, ?_, ?_, ?_, ?_, ?_,
    ?_, rfl⟩, ?_, ?_, ?_, ?_, ?_, ?_, ?_, ?_, ?_, ?_, ?_, ?_, ?_, ?_⟩
  · exact apiJs_issues_of (some o) ApiJs.fetchTeam id d rfl rfl _
      (combine_api_lit o "/admin/team" "/api/admin/team" (by decide) (by decide))
  · exact apiJs_issues_of (some o) ApiJs.addTeamMember id d rfl rfl _
      (combine_api_lit o "/admin/team" "/api/admin/team" (by decide) (by decide))
  · exact apiJs_issues_of (some o) ApiJs.updateTeamMember id d rfl rfl _
      (combine_api_withId o "/admin/team/" id "/api/admin/team/" (by decide)
        (by decide))
  · exact apiJs_issues_of (some o) ApiJs.deleteTeamMember id d rfl rfl _
      (combine_api_withId o "/admin/team/" id "/api/admin/team/" (by decide)
        (by decide))
  · exact apiJs_issues_of (some o) ApiJs.fetchVehicles id d rfl rfl _
      (combine_api_lit o "/admin/vehicles" "/api/admin/vehicles" (by decide)
        (by decide))
  · exact apiJs_issues_of (some o) ApiJs.createVehicle id d rfl rfl _
      (combine_api_lit o "/admin/vehicles" "/api/admin/vehicles" (by decide)
        (by decide))
  · exact apiJs_issues_of (some o) ApiJs.updateVehicle id d rfl rfl _
      (combine_api_withId o "/admin/vehicles/" id "/api/admin/vehicles/"
        (by decide) (by decide))
  · exact apiJs_issues_of (some o) ApiJs.deleteVehicle id d rfl rfl _
      (combine_api_withId o "/admin/vehicles/" id "/api/admin/vehicles/"
        (by decide) (by decide))
  · exact apiJs_issues_of (some o) ApiJs.fetchBlogs id d rfl rfl _
      (combine_api_lit o "/admin/blogs" "/api/admin/blogs" (by decide)
        (by decide))
  · exact apiJs_issues_of (some o) ApiJs.createBlog id d rfl rfl _
      (combine_api_lit o "/admin/blogs" "/api/admin/blogs" (by decide)
        (by decide))
  · exact apiJs_issues_of (some o) ApiJs.updateBlog id d rfl rfl _
      (combine_api_withId o "/admin/blogs/" id "/api/admin/blogs/" (by decide)
        (by decide))
  · exact apiJs_issues_of (some o) ApiJs.deleteBlog id d rfl rfl _
      (combine_api_withId o "/admin/blogs/" id "/api/admin/blogs/" (by decide)
        (by decide))
  · exact apiJs_issues_of (some o) ApiJs.fetchSiteSettings id d rfl rfl _
      (combine_api_lit o "/admin/site-settings" "/api/admin/site-settings"
        (by decide) (by decide))
  · exact apiJs_issues_of (some o) ApiJs.updateSiteSettings id d rfl rfl _
      (combine_api_lit o "/admin/site-settings" "/api/admin/site-settings"
        (by decide) (by decide))
  · rw [ApiJs.call_API_errors (some o) _ rfl rfl]
  · rw [ApiJs.call_API_errors (some o) _ rfl rfl]
  · rw [ApiJs.call_API_errors (some o) _ rfl rfl]
  · rw [ApiJs.call_API_errors (some o) _ rfl rfl]
  · exact part001_issues_of o Part001.fetchTeam id d rfl rfl _
      (combine_bare_lit o "/api/admin/team" "/api/admin/team" (by decide) ho
        (by decide))
  · exact part001_issues_of o Part001.addTeamMember id d rfl rfl _
      (combine_bare_lit o "/api/admin/team" "/api/admin/team" (by decide) ho
        (by decide))
  · exact part001_issues_of o Part001.updateTeamMember id d rfl rfl _
      (combine_bare_withId o "/api/admin/team/" id "/api/admin/team/"
        (by decide) ho (by decide))
  · exact part001_issues_of o Part001.deleteTeamMember id d rfl rfl _
      (combine_bare_withId o "/api/admin/team/" id "/api/admin/team/"
        (by decide) ho (by decide))
  · exact part001_issues_of o Part001.fetchVehicles id d rfl rfl _
      (combine_bare_lit o "/api/admin/vehicles" "/api/admin/vehicles"
        (by decide) ho (by decide))
  · exact part001_issues_of o Part001.createVehicle id d rfl rfl _
      (combine_bare_lit o "/api/admin/vehicles" "/api/admin/vehicles"
        (by decide) ho (by decide))
  · exact part001_issues_of o Part001.updateVehicle id d rfl rfl _
      (combine_bare_withId o "/api/admin/vehicles/" id "/api/admin/vehicles/"
        (by decide) ho (by decide))
  · exact part001_issues_of o Part001.deleteVehicle id d rfl rfl _
      (combine_bare_withId o "/api/admin/vehicles/" id "/api/admin/vehicles/"
        (by decide) ho (by decide))
  · exact part001_issues_of o Part001.fetchBlogs id d rfl rfl _
      (combine_bare_lit o "/api/admin/blogs" "/api/admin/blogs" (by decide) ho
        (by decide))
  · exact part001_issues_of o Part001.createBlog id d rfl rfl _
      (combine_bare_lit o "/api/admin/blogs" "/api/admin/blogs" (by decide) ho
        (by decide))
  · exact part001_issues_of o Part001.updateBlog id d rfl rfl _
      (combine_bare_withId o "/api/admin/blogs/" id "/api/admin/blogs/"
        (by decide) ho (by decide))
  · exact part001_issues_of o Part001.deleteBlog id d rfl rfl _
      (combine_bare_withId o "/api/admin/blogs/" id "/api/admin/blogs/"
        (by decide) ho (by decide))
  · exact part001_issues_of o Part001.fetchSiteSettings id d rfl rfl _
      (combine_bare_lit o "/api/admin/site-settings" "/api/admin/site-settings"
        (by decide) ho (by decide))
  · exact part001_issues_of o Part001.updateSiteSettings id d rfl rfl _
      (combine_bare_lit o "/api/admin/site-settings" "/api/admin/site-settings"
        (by decide) ho (by decide))

/-- Witness for the amended C2 at the default local origin. -/
theorem claim_C2_witness :
    issues (ApiJs.call (some "http://localhost:8000") ApiJs.fetchTeam "7" "d")
      Method.GET ("http://localhost:8000" ++ "/api/admin/team") :=
  (claim_C2_amended "http://localhost:8000" (by decide) "7" "d").1.1

/-- Claim C3: every mutating admin operation requires a valid, unexpired,
correctly signed token whose signature matches the configured secret, and
no resource mutation occurs without this check passing.  The backend is
modelled from the spec (it is not part of the source tree): a mutating
operation with a missing, expired or wrongly-signed token is rejected with
an authentication error and the store is unchanged, and conversely any
request that changes the store carried a token passing signature and
expiry validation. -/
theorem claim_C3_mutations_require_valid_token (secret now : Nat)
    (tok : Option Backend.Token) (op : Backend.AdminOp) (st : Backend.Store) :
    (op.isMutating = true → Backend.tokenValid secret now tok = false →
        Backend.handleAdmin secret now tok op st
          = (Backend.Response.authError, st)) ∧
    ((Backend.handleAdmin secret now tok op st).2 ≠ st →
        Backend.tokenValid secret now tok = true) := by
  constructor
  · intro hmut hval
    simp [Backend.handleAdmin, hmut, hval]
  · intro hch
    by_cases hval : Backend.tokenValid secret now tok = true
    · exact hval
    · exfalso
      apply hch
      have hv : Backend.tokenValid secret now tok = false := by
        cases h : Backend.tokenValid secret now tok
        · rfl
        · exact absurd h hval
      cases op with
      | listOp res =>
          simp [Backend.handleAdmin, Backend.AdminOp.isMutating,
            Backend.applyOp]
      | createOp res dd =>
          simp [Backend.handleAdmin, Backend.AdminOp.isMutating, hv]
      | updateOp res i dd =>
          simp [Backend.handleAdmin, Backend.AdminOp.isMutating, hv]
      | deleteOp res i =>
          simp [Backend.handleAdmin, Backend.AdminOp.isMutating, hv]

/-- Witness for C3: an unauthenticated create of a vehicle is rejected and
leaves the (empty) store unchanged. -/
theorem claim_C3_witness :
    Backend.handleAdmin 42 0 none
        (Backend.AdminOp.createOp "vehicles" [("make", "Toyota")])
        { collections := [], nextId := 0 }
      = (Backend.Response.authError, { collections := [], nextId := 0 }) :=
  (claim_C3_mutations_require_valid_token 42 0 none
      (Backend.AdminOp.createOp "vehicles" [("make", "Toyota")])
      { collections := [], nextId := 0 }).1 (by decide) (by decide)

/-- Claim C4 counterexample: the packages resource does not have a working
delete operation — invoking deletePackage of api.js with an id constructs
no DELETE request (the symbol `API` it references is unbound). -/
theorem claim_C4_counterexample :
    ¬ ∃ r : Request,
      (ApiJs.call none ApiJs.deletePackage "7" "").1 = Except.ok r
        ∧ r.method = Method.DELETE := by
  intro hc
  obtain ⟨r, hr, -⟩ := hc
  rw [ApiJs.call_API_errors none _ rfl rfl] at hr
  exact Except.noConfusion hr

/-- Claim C4 as amended: for each of team, vehicles and blogs, both client
variants expose exactly four operations — list (GET, no arguments), create
(POST, data), update (PUT, id and data), delete (DELETE, id).  For
packages, api.js exports four functions whose bodies carry those verbs and
argument signatures, but every invocation of them fails with a
ReferenceError for the unbound symbol `API`, and part_001 exposes no
package operation at all (its route literals are exactly the team,
site-settings, vehicles and blogs ones). -/
theorem claim_C4_amended :
    (opsFor ApiJs.exports "/admin/team" "/admin/team/"
        = [("fetchTeam", ArgSig.unit, Method.GET),
           ("addTeamMember", ArgSig.dataOnly, Method.POST),
           ("updateTeamMember", ArgSig.idData, Method.PUT),
           ("deleteTeamMember", ArgSig.idOnly, Method.DELETE)]) ∧
    (opsFor ApiJs.exports "/admin/vehicles" "/admin/vehicles/"
        = [("fetchVehicles", ArgSig.unit, Method.GET),
           ("createVehicle", ArgSig.dataOnly, Method.POST),
           ("updateVehicle", ArgSig.idData, Method.PUT),
           ("deleteVehicle", ArgSig.idOnly, Method.DELETE)]) ∧
    (opsFor ApiJs.exports "/admin/blogs" "/admin/blogs/"
        = [("fetchBlogs", ArgSig.unit, Method.GET),
           ("createBlog", ArgSig.dataOnly, Method.POST),
           ("updateBlog", ArgSig.idData, Method.PUT),
           ("deleteBlog", ArgSig.idOnly, Method.DELETE)]) ∧
    (opsFor Part001.exports "/api/admin/team" "/api/admin/team/"
        = [("fetchTeam", ArgSig.unit, Method.GET),
           ("addTeamMember", ArgSig.dataOnly, Method.POST),
           ("updateTeamMember", ArgSig.idData, Method.PUT),
           ("deleteTeamMember", ArgSig.idOnly, Method.DELETE)]) ∧
    (opsFor Part001.exports "/api/admin/vehicles" "/api/admin/vehicles/"
        = [("fetchVehicles", ArgSig.unit, Method.GET),
           ("createVehicle", ArgSig.dataOnly, Method.POST),
           ("updateVehicle", ArgSig.idData, Method.PUT),
           ("deleteVehicle", ArgSig.idOnly, Method.DELETE)]) ∧
    (opsFor Part001.exports "/api/admin/blogs" "/api/admin/blogs/"
        = [("fetchBlogs", ArgSig.unit, Method.GET),
           ("createBlog", ArgSig.dataOnly, Method.POST),
           ("updateBlog", ArgSig.idData, Method.PUT),
           ("deleteBlog", ArgSig.idOnly, Method.DELETE)]) ∧
    (ApiJs.fetchPackages.sig = ArgSig.unit
        ∧ ApiJs.fetchPackages.method = Method.GET) ∧
    (ApiJs.createPackage.sig = ArgSig.dataOnly
        ∧ ApiJs.createPackage.method = Method.POST) ∧
    (ApiJs.updatePackage.sig = ArgSig.idData
        ∧ ApiJs.updatePackage.method = Method.PUT) ∧
    (ApiJs.deletePackage.sig = ArgSig.idOnly
        ∧ ApiJs.deletePackage.method = Method.DELETE) ∧
    (∀ env id d,
      (ApiJs.call env ApiJs.fetchPackages id d).1
          = Except.error (JsError.referenceError "API") ∧
      (ApiJs.call env ApiJs.createPackage id d).1
          = Except.error (JsError.referenceError "API") ∧
      (ApiJs.call env ApiJs.updatePackage id d).1
          = Except.error (JsError.referenceError "API") ∧
      (ApiJs.call env ApiJs.deletePackage id d).1
          = Except.error (JsError.referenceError "API")) ∧
    (routeBases Part001.exports
        = ["/api/admin/team", "/api/admin/team",
           "/api/admin/team/", "/api/admin/team/",
           "/api/admin/site-settings", "/api/admin/site-settings",
           "/api/admin/vehicles", "/api/admin/vehicles",
           "/api/admin/vehicles/", "/api/admin/vehicles/",
           "/api/admin/blogs", "/api/admin/blogs",
           "/api/admin/blogs/", "/api/admin/blogs/"]) := by
  refine ⟨by decide, by decide, by decide, by decide, by decide, by decide,
    by decide, by decide, by decide, by decide, ?_, by decide⟩
  intro env id d
  refine ⟨?_, ?_, ?_, ?_⟩ <;> rw [ApiJs.call_API_errors env _ rfl rfl]

/-! Helpers showing that requests of other routes never resolve to the
site-settings URL, for a symbolic origin and identifier. -/

theorem api_combine_ne (o p q t : String) (hp : p ≠ "")
    (hq : "/api/" ++ stripLeadingSlashes p = q) (hne : ¬ q = t) :
    ¬ (combineURLs (o ++ "/api") p = o ++ t) := by
  rw [combine_api_lit o p q hp hq]
  exact string_append_right_ne o q t hne

theorem api_combine_withId_ne (o pre id q t : String)
    (h1 : dropSlashes pre.data ≠ [])
    (h2 : "/api/" ++ stripLeadingSlashes pre = q)
    (h3 : ∀ x, ¬ (q ++ x = t)) :
    ¬ (combineURLs (o ++ "/api") (pre ++ id) = o ++ t) := by
  rw [combine_api_withId o pre id q h1 h2]
  exact string_append_right_ne o (q ++ id) t (h3 id)

theorem sl_append_ne (pre id plit a b : String) (i : Nat)
    (ha : stripLeadingSlashes pre = a) (hb : stripLeadingSlashes plit = b)
    (hi : i < a.data.length) (hne : a.data[i]? ≠ b.data[i]?) :
    ¬ (stripLeadingSlashes pre ++ id = stripLeadingSlashes plit) := by
  rw [ha, hb]
  exact append_fixed_ne a id b i hi hne

theorem bare_combine_withId_ne (o pre id plit : String)
    (h1 : dropSlashes pre.data ≠ [])
    (hne : ¬ (stripLeadingSlashes pre ++ id = stripLeadingSlashes plit))
    (hq : plit ≠ "") :
    ¬ (combineURLs o (pre ++ id) = combineURLs o plit) :=
  combineURLs_cancel o _ _
    (append_ne_empty_left pre id (fun hp => h1 (by rw [hp]; rfl)))
    hq (by rw [stripLead_append _ _ h1]; exact hne)

/-- Claim C5: in every client variant the only operations whose route is
site-settings are a fetch (GET) and an update (PUT); no exported function
issues a POST or DELETE request to the site-settings URL.  Structurally,
the exports on the site-settings route of each variant are exactly
fetchSiteSettings (GET, no arguments) and updateSiteSettings (PUT, data);
semantically, any export of api.js or part_001 whose constructed request
resolves to the site-settings URL uses GET or PUT, and no export of
part_002 constructs a request at all. -/
theorem claim_C5_site_settings_only_get_put :
    (opsFor ApiJs.exports "/admin/site-settings" "/admin/site-settings"
        = [("fetchSiteSettings", ArgSig.unit, Method.GET),
           ("updateSiteSettings", ArgSig.dataOnly, Method.PUT)]) ∧
    (opsFor Part001.exports "/api/admin/site-settings" "/api/admin/site-settings"
        = [("fetchSiteSettings", ArgSig.unit, Method.GET),
           ("updateSiteSettings", ArgSig.dataOnly, Method.PUT)]) ∧
    (opsFor Part002.exports "/api/admin/site-settings" "/api/admin/site-settings"
        = [("fetchSiteSettings", ArgSig.unit, Method.GET),
           ("updateSiteSettings", ArgSig.dataOnly, Method.PUT)]) ∧
    (∀ env nf, nf ∈ ApiJs.exports → ∀ id d r,
      (ApiJs.call env nf.2 id d).1 = Except.ok r →
      r.fullUrl = ApiJs.API_URL env ++ "/api/admin/site-settings" →
      r.method = Method.GET ∨ r.method = Method.PUT) ∧
    (∀ env nf, nf ∈ Part001.exports → ∀ id d r,
      (Part001.call env nf.2 id d).1 = Except.ok r →
      r.fullUrl = ((Part001.API env).request Method.GET
          "/api/admin/site-settings" none).fullUrl →
      r.method = Method.GET ∨ r.method = Method.PUT) ∧
    (∀ env nf, nf ∈ Part002.exports → ∀ id d r,
      (Part002.call env nf.2 id d).1 = Except.ok r → False) := by
  refine ⟨by decide, by decide, by decide, ?_, ?_, ?_⟩
  · intro env nf hmem
    fin_cases hmem
    · intro id d r hok hurl
      rw [ApiJs.call_api_resolves env _ rfl rfl] at hok
      obtain rfl := Except.ok.inj hok
      exact Or.inl rfl
    · intro id d r hok hurl
      rw [ApiJs.call_api_resolves env _ rfl rfl] at hok
      obtain rfl := Except.ok.inj hok
      exact absurd hurl (api_combine_ne (ApiJs.API_URL env) "/admin/team"
        "/api/admin/team" "/api/admin/site-settings" (by decide) (by decide)
        (by decide))
    · intro id d r hok hurl
      rw [ApiJs.call_api_resolves env _ rfl rfl] at hok
      obtain rfl := Except.ok.inj hok
      exact Or.inr rfl
    · intro id d r hok hurl
      rw [ApiJs.call_api_resolves env _ rfl rfl] at hok
      obtain rfl := Except.ok.inj hok
      exact absurd hurl (api_combine_withId_ne (ApiJs.API_URL env)
        "/admin/team/" id "/api/admin/team/" "/api/admin/site-settings"
        (by decide) (by decide)
        (fun x => append_fixed_ne "/api/admin/team/" x
          "/api/admin/site-settings" 11 (by decide) (by decide)))
    · intro id d r hok hurl
      rw [ApiJs.call_api_resolves env _ rfl rfl] at hok
      obtain rfl := Except.ok.inj hok
      exact Or.inl rfl
    · intro id d r hok hurl
      rw [ApiJs.call_api_resolves env _ rfl rfl] at hok
      obtain rfl := Except.ok.inj hok
      exact Or.inr rfl
    · intro id d r hok hurl
      rw [ApiJs.call_api_resolves env _ rfl rfl] at hok
      obtain rfl := Except.ok.inj hok
      exact Or.inl rfl
    · intro id d r hok hurl
      rw [ApiJs.call_api_resolves env _ rfl rfl] at hok
      obtain rfl := Except.ok.inj hok
      exact absurd hurl (api_combine_ne (ApiJs.API_URL env) "/admin/vehicles"
        "/api/admin/vehicles" "/api/admin/site-settings" (by decide)
        (by decide) (by decide))
    · intro id d r hok hurl
      rw [ApiJs.call_api_resolves env _ rfl rfl] at hok
      obtain rfl := Except.ok.inj hok
      exact Or.inr rfl
    · intro id d r hok hurl
      rw [ApiJs.call_api_resolves env _ rfl rfl] at hok
      obtain rfl := Except.ok.inj hok
      exact absurd hurl (api_combine_withId_ne (ApiJs.API_URL env)
        "/admin/vehicles/" id "/api/admin/vehicles/" "/api/admin/site-settings"
        (by decide) (by decide)
        (fun x => append_fixed_ne "/api/admin/vehicles/" x
          "/api/admin/site-settings" 11 (by decide) (by decide)))
    · intro id d r hok hurl
      rw [ApiJs.call_api_resolves env _ rfl rfl] at hok
      obtain rfl := Except.ok.inj hok
      exact Or.inl rfl
    · intro id d r hok hurl
      rw [ApiJs.call_api_resolves env _ rfl rfl] at hok
      obtain rfl := Except.ok.inj hok
      exact absurd hurl (api_combine_ne (ApiJs.API_URL env) "/admin/blogs"
        "/api/admin/blogs" "/api/admin/site-settings" (by decide) (by decide)
        (by decide))
    · intro id d r hok hurl
      rw [ApiJs.call_api_resolves env _ rfl rfl] at hok
      obtain rfl := Except.ok.inj hok
      exact Or.inr rfl
    · intro id d r hok hurl
      rw [ApiJs.call_api_resolves env _ rfl rfl] at hok
      obtain rfl := Except.ok.inj hok
      exact absurd hurl (api_combine_withId_ne (ApiJs.API_URL env)
        "/admin/blogs/" id "/api/admin/blogs/" "/api/admin/site-settings"
        (by decide) (by decide)
        (fun x => append_fixed_ne "/api/admin/blogs/" x
          "/api/admin/site-settings" 11 (by decide) (by decide)))
    · intro id d r hok hurl
      rw [ApiJs.call_API_errors env _ rfl rfl] at hok
      exact Except.noConfusion hok
    · intro id d r hok hurl
      rw [ApiJs.call_API_errors env _ rfl rfl] at hok
      exact Except.noConfusion hok
    · intro id d r hok hurl
      rw [ApiJs.call_API_errors env _ rfl rfl] at hok
      exact Except.noConfusion hok
    · intro id d r hok hurl
      rw [ApiJs.call_API_errors env _ rfl rfl] at hok
      exact Except.noConfusion hok
  · intro env nf hmem
    fin_cases hmem
    · intro id d r hok hurl
      rw [Part001.call_API_resolves env _ rfl rfl] at hok
      obtain rfl := Except.ok.inj hok
      exact Or.inl rfl
    · intro id d r hok hurl
      rw [Part001.call_API_resolves env _ rfl rfl] at hok
      obtain rfl := Except.ok.inj hok
      cases env with
      | none =>
          exact absurd (show ("/api/admin/team" : String)
            = "/api/admin/site-settings" from hurl) (by decide)
      | some o =>
          exact absurd hurl (combineURLs_cancel o "/api/admin/team"
            "/api/admin/site-settings" (by decide) (by decide) (by decide))
    · intro id d r hok hurl
      rw [Part001.call_API_resolves env _ rfl rfl] at hok
      obtain rfl := Except.ok.inj hok
      exact Or.inr rfl
    · intro id d r hok hurl
      rw [Part001.call_API_resolves env _ rfl rfl] at hok
      obtain rfl := Except.ok.inj hok
      cases env with
      | none =>
          exact absurd hurl (append_fixed_ne "/api/admin/team/" id
            "/api/admin/site-settings" 11 (by decide) (by decide))
      | some o =>
          exact absurd hurl (bare_combine_withId_ne o "/api/admin/team/" id
            "/api/admin/site-settings" (by decide)
            (sl_append_ne "/api/admin/team/" id "/api/admin/site-settings"
              "api/admin/team/" "api/admin/site-settings" 10 (by decide)
              (by decide) (by decide) (by decide)) (by decide))
    · intro id d r hok hurl
      rw [Part001.call_API_resolves env _ rfl rfl] at hok
      obtain rfl := Except.ok.inj hok
      exact Or.inl rfl
    · intro id d r hok hurl
      rw [Part001.call_API_resolves env _ rfl rfl] at hok
      obtain rfl := Except.ok.inj hok
      exact Or.inr rfl
    · intro id d r hok hurl
      rw [Part001.call_API_resolves env _ rfl rfl] at hok
      obtain rfl := Except.ok.inj hok
      exact Or.inl rfl
    · intro id d r hok hurl
      rw [Part001.call_API_resolves env _ rfl rfl] at hok
      obtain rfl := Except.ok.inj hok
      cases env with
      | none =>
          exact absurd (show ("/api/admin/vehicles" : String)
            = "/api/admin/site-settings" from hurl) (by decide)
      | some o =>
          exact absurd hurl (combineURLs_cancel o "/api/admin/vehicles"
            "/api/admin/site-settings" (by decide) (by decide) (by decide))
    · intro id d r hok hurl
      rw [Part001.call_API_resolves env _ rfl rfl] at hok
      obtain rfl := Except.ok.inj hok
      exact Or.inr rfl
    · intro id d r hok hurl
      rw [Part001.call_API_resolves env _ rfl rfl] at hok
      obtain rfl := Except.ok.inj hok
      cases env with
      | none =>
          exact absurd hurl (append_fixed_ne "/api/admin/vehicles/" id
            "/api/admin/site-settings" 11 (by decide) (by decide))
      | some o =>
          exact absurd hurl (bare_combine_withId_ne o "/api/admin/vehicles/" id
            "/api/admin/site-settings" (by decide)
            (sl_append_ne "/api/admin/vehicles/" id "/api/admin/site-settings"
              "api/admin/vehicles/" "api/admin/site-settings" 10 (by decide)
              (by decide) (by decide) (by decide)) (by decide))
    · intro id d r hok hurl
      rw [Part001.call_API_resolves env _ rfl rfl] at hok
      obtain rfl := Except.ok.inj hok
      exact Or.inl rfl
    · intro id d r hok hurl
      rw [Part001.call_API_resolves env _ rfl rfl] at hok
      obtain rfl := Except.ok.inj hok
      cases env with
      | none =>
          exact absurd (show ("/api/admin/blogs" : String)
            = "/api/admin/site-settings" from hurl) (by decide)
      | some o =>
          exact absurd hurl (combineURLs_cancel o "/api/admin/blogs"
            "/api/admin/site-settings" (by decide) (by decide) (by decide))
    · intro id d r hok hurl
      rw [Part001.call_API_resolves env _ rfl rfl] at hok
      obtain rfl := Except.ok.inj hok
      exact Or.inr rfl
    · intro id d r hok hurl
      rw [Part001.call_API_resolves env _ rfl rfl] at hok
      obtain rfl := Except.ok.inj hok
      cases env with
      | none =>
          exact absurd hurl (append_fixed_ne "/api/admin/blogs/" id
            "/api/admin/site-settings" 11 (by decide) (by decide))
      | some o =>
          exact absurd hurl (bare_combine_withId_ne o "/api/admin/blogs/" id
            "/api/admin/site-settings" (by decide)
            (sl_append_ne "/api/admin/blogs/" id "/api/admin/site-settings"
              "api/admin/blogs/" "api/admin/site-settings" 10 (by decide)
              (by decide) (by decide) (by decide)) (by decide))
  · intro env nf hmem
    fin_cases hmem
    all_goals
      intro id d r hok
      rw [Part002.call_errors env _ rfl rfl] at hok
      exact Except.noConfusion hok

/-- Witness for C5: the concrete site-settings fetch request of api.js in
the default environment is admitted by the GET-or-PUT property. -/
theorem claim_C5_witness :
    ({ method := Method.GET, baseURL := some "http://localhost:8000/api",
       path := "/admin/site-settings", body := none, withCredentials := false,
       headers := [] } : Request).method = Method.GET
    ∨ ({ method := Method.GET, baseURL := some "http://localhost:8000/api",
         path := "/admin/site-settings", body := none,
         withCredentials := false, headers := [] } : Request).method
        = Method.PUT :=
  claim_C5_site_settings_only_get_put.2.2.2.1 none
    ("fetchSiteSettings", ApiJs.fetchSiteSettings) (by decide) "" ""
    { method := Method.GET, baseURL := some "http://localhost:8000/api",
      path := "/admin/site-settings", body := none, withCredentials := false,
      headers := [] } (by decide) (by decide)

/-- Claim C6: every exported client function is a pure request wrapper: a
call leaves the module-level bindings exactly as they were (the wrapper
bodies contain no assignment statement), and two calls of the same export
with equal id and data arguments produce identical results — same method,
URL and body, or the identical error. -/
theorem claim_C6_pure_wrappers :
    (∀ env nf, nf ∈ ApiJs.exports → ∀ id d,
        (ApiJs.call env nf.2 id d).2 = ApiJs.moduleScope env) ∧
    (∀ env nf, nf ∈ Part001.exports → ∀ id d,
        (Part001.call env nf.2 id d).2 = Part001.moduleScope env) ∧
    (∀ env nf, nf ∈ ApiJs.exports → ∀ id₁ d₁ id₂ d₂,
        id₁ = id₂ → d₁ = d₂ →
        (ApiJs.call env nf.2 id₁ d₁).1 = (ApiJs.call env nf.2 id₂ d₂).1) ∧
    (∀ env nf, nf ∈ Part001.exports → ∀ id₁ d₁ id₂ d₂,
        id₁ = id₂ → d₁ = d₂ →
        (Part001.call env nf.2 id₁ d₁).1 = (Part001.call env nf.2 id₂ d₂).1) := by
  refine ⟨?_, ?_, ?_, ?_⟩
  · intro env nf hmem id d
    fin_cases hmem <;> rfl
  · intro env nf hmem id d
    fin_cases hmem <;> rfl
  · intro env nf hmem id₁ d₁ id₂ d₂ h1 h2
    subst h1
    subst h2
    rfl
  · intro env nf hmem id₁ d₁ id₂ d₂ h1 h2
    subst h1
    subst h2
    rfl

/-- Witness for C6 at a concrete export and arguments. -/
theorem claim_C6_witness :
    (ApiJs.call none ApiJs.updateVehicle "5" "x").2 = ApiJs.moduleScope none ∧
    (Part001.call none Part001.updateVehicle "5" "x").1
      = (Part001.call none Part001.updateVehicle "5" "x").1 :=
  ⟨claim_C6_pure_wrappers.1 none ("updateVehicle", ApiJs.updateVehicle)
      (by decide) "5" "x",
   claim_C6_pure_wrappers.2.2.2 none ("updateVehicle", Part001.updateVehicle)
      (by decide) "5" "x" "5" "x" rfl rfl⟩

/-- Claim C7: assuming both base-URL environment variables resolve to the
same backend origin (a URL without trailing slash), each of the fourteen
exports shared by api.js (base URL origin + /api, paths like /admin/team)
and part_001 (bare origin, paths like /api/admin/team) produces the same
method and the same full request URL for the same arguments. -/
theorem claim_C7_variants_request_equivalent (o : String)
    (ho : stripTrailingSlashes o = o) (id d : String) :
    sameRequestLine (ApiJs.call (some o) ApiJs.fetchTeam id d).1
        (Part001.call (some o) Part001.fetchTeam id d).1 ∧
    sameRequestLine (ApiJs.call (some o) ApiJs.addTeamMember id d).1
        (Part001.call (some o) Part001.addTeamMember id d).1 ∧
    sameRequestLine (ApiJs.call (some o) ApiJs.updateTeamMember id d).1
        (Part001.call (some o) Part001.updateTeamMember id d).1 ∧
    sameRequestLine (ApiJs.call (some o) ApiJs.deleteTeamMember id d).1
        (Part001.call (some o) Part001.deleteTeamMember id d).1 ∧
    sameRequestLine (ApiJs.call (some o) ApiJs.fetchSiteSettings id d).1
        (Part001.call (some o) Part001.fetchSiteSettings id d).1 ∧
    sameRequestLine (ApiJs.call (some o) ApiJs.updateSiteSettings id d).1
        (Part001.call (some o) Part001.updateSiteSettings id d).1 ∧
    sameRequestLine (ApiJs.call (some o) ApiJs.fetchVehicles id d).1
        (Part001.call (some o) Part001.fetchVehicles id d).1 ∧
    sameRequestLine (ApiJs.call (some o) ApiJs.createVehicle id d).1
        (Part001.call (some o) Part001.createVehicle id d).1 ∧
    sameRequestLine (ApiJs.call (some o) ApiJs.updateVehicle id d).1
        (Part001.call (some o) Part001.updateVehicle id d).1 ∧
    sameRequestLine (ApiJs.call (some o) ApiJs.deleteVehicle id d).1
        (Part001.call (some o) Part001.deleteVehicle id d).1 ∧
    sameRequestLine (ApiJs.call (some o) ApiJs.fetchBlogs id d).1
        (Part001.call (some o) Part001.fetchBlogs id d).1 ∧
    sameRequestLine (ApiJs.call (some o) ApiJs.createBlog id d).1
        (Part001.call (some o) Part001.createBlog id d).1 ∧
    sameRequestLine (ApiJs.call (some o) ApiJs.updateBlog id d).1
        (Part001.call (some o) Part001.updateBlog id d).1 ∧
    sameRequestLine (ApiJs.call (some o) ApiJs.deleteBlog id d).1
        (Part001.call (some o) Part001.deleteBlog id d).1 := by
  refine ⟨?_, ?_, ?_, ?_, ?_, ?_, ?_, ?_, ?_, ?_, ?_, ?_, ?_, ?_⟩
  · exact same_line_of o ApiJs.fetchTeam Part001.fetchTeam id d rfl rfl rfl rfl
      rfl _ (combine_api_lit o "/admin/team" "/api/admin/team" (by decide)
        (by decide))
      (combine_bare_lit o "/api/admin/team" "/api/admin/team" (by decide) ho
        (by decide))
  · exact same_line_of o ApiJs.addTeamMember Part001.addTeamMember id d rfl rfl
      rfl rfl rfl _ (combine_api_lit o "/admin/team" "/api/admin/team"
        (by decide) (by decide))
      (combine_bare_lit o "/api/admin/team" "/api/admin/team" (by decide) ho
        (by decide))
  · exact same_line_of o ApiJs.updateTeamMember Part001.updateTeamMember id d
      rfl rfl rfl rfl rfl _ (combine_api_withId o "/admin/team/" id
        "/api/admin/team/" (by decide) (by decide))
      (combine_bare_withId o "/api/admin/team/" id "/api/admin/team/"
        (by decide) ho (by decide))
  · exact same_line_of o ApiJs.deleteTeamMember Part001.deleteTeamMember id d
      rfl rfl rfl rfl rfl _ (combine_api_withId o "/admin/team/" id
        "/api/admin/team/" (by decide) (by decide))
      (combine_bare_withId o "/api/admin/team/" id "/api/admin/team/"
        (by decide) ho (by decide))
  · exact same_line_of o ApiJs.fetchSiteSettings Part001.fetchSiteSettings id d
      rfl rfl rfl rfl rfl _ (combine_api_lit o "/admin/site-settings"
        "/api/admin/site-settings" (by decide) (by decide))
      (combine_bare_lit o "/api/admin/site-settings" "/api/admin/site-settings"
        (by decide) ho (by decide))
  · exact same_line_of o ApiJs.updateSiteSettings Part001.updateSiteSettings id
      d rfl rfl rfl rfl rfl _ (combine_api_lit o "/admin/site-settings"
        "/api/admin/site-settings" (by decide) (by decide))
      (combine_bare_lit o "/api/admin/site-settings" "/api/admin/site-settings"
        (by decide) ho (by decide))
  · exact same_line_of o ApiJs.fetchVehicles Part001.fetchVehicles id d rfl rfl
      rfl rfl rfl _ (combine_api_lit o "/admin/vehicles" "/api/admin/vehicles"
        (by decide) (by decide))
      (combine_bare_lit o "/api/admin/vehicles" "/api/admin/vehicles"
        (by decide) ho (by decide))
  · exact same_line_of o ApiJs.createVehicle Part001.createVehicle id d rfl rfl
      rfl rfl rfl _ (combine_api_lit o "/admin/vehicles" "/api/admin/vehicles"
        (by decide) (by decide))
      (combine_bare_lit o "/api/admin/vehicles" "/api/admin/vehicles"
        (by decide) ho (by decide))
  · exact same_line_of o ApiJs.updateVehicle Part001.updateVehicle id d rfl rfl
      rfl rfl rfl _ (combine_api_withId o "/admin/vehicles/" id
        "/api/admin/vehicles/" (by decide) (by decide))
      (combine_bare_withId o "/api/admin/vehicles/" id "/api/admin/vehicles/"
        (by decide) ho (by decide))
  · exact same_line_of o ApiJs.deleteVehicle Part001.deleteVehicle id d rfl rfl
      rfl rfl rfl _ (combine_api_withId o "/admin/vehicles/" id
        "/api/admin/vehicles/" (by decide) (by decide))
      (combine_bare_withId o "/api/admin/vehicles/" id "/api/admin/vehicles/"
        (by decide) ho (by decide))
  · exact same_line_of o ApiJs.fetchBlogs Part001.fetchBlogs id d rfl rfl rfl
      rfl rfl _ (combine_api_lit o "/admin/blogs" "/api/admin/blogs"
        (by decide) (by decide))
      (combine_bare_lit o "/api/admin/blogs" "/api/admin/blogs" (by decide) ho
        (by decide))
  · exact same_line_of o ApiJs.createBlog Part001.createBlog id d rfl rfl rfl
      rfl rfl _ (combine_api_lit o "/admin/blogs" "/api/admin/blogs"
        (by decide) (by decide))
      (combine_bare_lit o "/api/admin/blogs" "/api/admin/blogs" (by decide) ho
        (by decide))
  · exact same_line_of o ApiJs.updateBlog Part001.updateBlog id d rfl rfl rfl
      rfl rfl _ (combine_api_withId o "/admin/blogs/" id "/api/admin/blogs/"
        (by decide) (by decide))
      (combine_bare_withId o "/api/admin/blogs/" id "/api/admin/blogs/"
        (by decide) ho (by decide))
  · exact same_line_of o ApiJs.deleteBlog Part001.deleteBlog id d rfl rfl rfl
      rfl rfl _ (combine_api_withId o "/admin/blogs/" id "/api/admin/blogs/"
        (by decide) (by decide))
      (combine_bare_withId o "/api/admin/blogs/" id "/api/admin/blogs/"
        (by decide) ho (by decide))

/-- Witness for C7 at the default local origin. -/
theorem claim_C7_witness :
    sameRequestLine
      (ApiJs.call (some "http://localhost:8000") ApiJs.fetchTeam "3" "d").1
      (Part001.call (some "http://localhost:8000") Part001.fetchTeam "3" "d").1 :=
  (claim_C7_variants_request_equivalent "http://localhost:8000" (by decide)
    "3" "d").1

/-- Claim C8: no exported function of the client attaches authentication:
the axios instances are created with withCredentials false, and every
request any wrapper successfully constructs carries withCredentials false
and an empty wrapper-added header list (in particular no Authorization
header), including the mutating POST/PUT/DELETE admin requests. -/
theorem claim_C8_no_auth_attached :
    (∀ env, (ApiJs.api env).withCredentials = false) ∧
    (∀ env, (Part001.API env).withCredentials = false) ∧
    (∀ env nf, nf ∈ ApiJs.exports → ∀ id d r,
        (ApiJs.call env nf.2 id d).1 = Except.ok r →
        r.withCredentials = false ∧ r.headers = []) ∧
    (∀ env nf, nf ∈ Part001.exports → ∀ id d r,
        (Part001.call env nf.2 id d).1 = Except.ok r →
        r.withCredentials = false ∧ r.headers = []) := by
  refine ⟨fun env => rfl, fun env => rfl, ?_, ?_⟩
  · intro env nf hmem
    fin_cases hmem <;>
      (intro id d r hok
       first
       | (rw [ApiJs.call_api_resolves env _ rfl rfl] at hok
          obtain rfl := Except.ok.inj hok
          exact ⟨rfl, rfl⟩)
       | (rw [ApiJs.call_API_errors env _ rfl rfl] at hok
          exact Except.noConfusion hok))
  · intro env nf hmem
    fin_cases hmem <;>
      (intro id d r hok
       rw [Part001.call_API_resolves env _ rfl rfl] at hok
       obtain rfl := Except.ok.inj hok
       exact ⟨rfl, rfl⟩)

/-- Witness for C8 at a concrete mutating request. -/
theorem claim_C8_witness :
    ({ method := Method.DELETE,
       baseURL := some ("http://localhost:8000" ++ "/api"),
       path := "/admin/vehicles/9", body := none, withCredentials := false,
       headers := [] } : Request).withCredentials = false
    ∧ ({ method := Method.DELETE,
         baseURL := some ("http://localhost:8000" ++ "/api"),
         path := "/admin/vehicles/9", body := none, withCredentials := false,
         headers := [] } : Request).headers = [] :=
  claim_C8_no_auth_attached.2.2.1 none ("deleteVehicle", ApiJs.deleteVehicle)
    (by decide) "9" ""
    { method := Method.DELETE,
      baseURL := some ("http://localhost:8000" ++ "/api"),
      path := "/admin/vehicles/9", body := none, withCredentials := false,
      headers := [] } (by decide)

/-- Claim C9: with REACT_APP_API_URL unset, api.js falls back to the base
http://localhost:8000, the axios instance's base URL is
http://localhost:8000/api, and every request an export of api.js
successfully constructs resolves to a URL beginning with
http://localhost:8000/api. -/
theorem claim_C9_default_base_url :
    ApiJs.API_URL none = "http://localhost:8000" ∧
    (ApiJs.api none).baseURL = some "http://localhost:8000/api" ∧
    (∀ nf, nf ∈ ApiJs.exports → ∀ id d r,
        (ApiJs.call none nf.2 id d).1 = Except.ok r →
        ∃ rest, r.fullUrl = "http://localhost:8000/api" ++ rest) := by
  refine ⟨rfl, by decide, ?_⟩
  intro nf hmem
  fin_cases hmem
  · intro id d r hok
    rw [ApiJs.call_api_resolves none _ rfl rfl] at hok
    obtain rfl := Except.ok.inj hok
    refine ⟨"/admin/team", ?_⟩
    show combineURLs (ApiJs.API_URL none ++ "/api") "/admin/team"
      = "http://localhost:8000/api" ++ "/admin/team"
    decide
  · intro id d r hok
    rw [ApiJs.call_api_resolves none _ rfl rfl] at hok
    obtain rfl := Except.ok.inj hok
    refine ⟨"/admin/team", ?_⟩
    show combineURLs (ApiJs.API_URL none ++ "/api") "/admin/team"
      = "http://localhost:8000/api" ++ "/admin/team"
    decide
  · intro id d r hok
    rw [ApiJs.call_api_resolves none _ rfl rfl] at hok
    obtain rfl := Except.ok.inj hok
    exact ⟨"/admin/team/" ++ id,
      (combine_api_withId "http://localhost:8000" "/admin/team/" id
          "/api/admin/team/" (by decide) (by decide)).trans
        (split_append "http://localhost:8000" "/api/admin/team/"
          "http://localhost:8000/api" "/admin/team/" id (by decide))⟩
  · intro id d r hok
    rw [ApiJs.call_api_resolves none _ rfl rfl] at hok
    obtain rfl := Except.ok.inj hok
    exact ⟨"/admin/team/" ++ id,
      (combine_api_withId "http://localhost:8000" "/admin/team/" id
          "/api/admin/team/" (by decide) (by decide)).trans
        (split_append "http://localhost:8000" "/api/admin/team/"
          "http://localhost:8000/api" "/admin/team/" id (by decide))⟩
  · intro id d r hok
    rw [ApiJs.call_api_resolves none _ rfl rfl] at hok
    obtain rfl := Except.ok.inj hok
    refine ⟨"/admin/site-settings", ?_⟩
    show combineURLs (ApiJs.API_URL none ++ "/api") "/admin/site-settings"
      = "http://localhost:8000/api" ++ "/admin/site-settings"
    decide
  · intro id d r hok
    rw [ApiJs.call_api_resolves none _ rfl rfl] at hok
    obtain rfl := Except.ok.inj hok
    refine ⟨"/admin/site-settings", ?_⟩
    show combineURLs (ApiJs.API_URL none ++ "/api") "/admin/site-settings"
      = "http://localhost:8000/api" ++ "/admin/site-settings"
    decide
  · intro id d r hok
    rw [ApiJs.call_api_resolves none _ rfl rfl] at hok
    obtain rfl := Except.ok.inj hok
    refine ⟨"/admin/vehicles", ?_⟩
    show combineURLs (ApiJs.API_URL none ++ "/api") "/admin/vehicles"
      = "http://localhost:8000/api" ++ "/admin/vehicles"
    decide
  · intro id d r hok
    rw [ApiJs.call_api_resolves none _ rfl rfl] at hok
    obtain rfl := Except.ok.inj hok
    refine ⟨"/admin/vehicles", ?_⟩
    show combineURLs (ApiJs.API_URL none ++ "/api") "/admin/vehicles"
      = "http://localhost:8000/api" ++ "/admin/vehicles"
    decide
  · intro id d r hok
    rw [ApiJs.call_api_resolves none _ rfl rfl] at hok
    obtain rfl := Except.ok.inj hok
    exact ⟨"/admin/vehicles/" ++ id,
      (combine_api_withId "http://localhost:8000" "/admin/vehicles/" id
          "/api/admin/vehicles/" (by decide) (by decide)).trans
        (split_append "http://localhost:8000" "/api/admin/vehicles/"
          "http://localhost:8000/api" "/admin/vehicles/" id (by decide))⟩
  · intro id d r hok
    rw [ApiJs.call_api_resolves none _ rfl rfl] at hok
    obtain rfl := Except.ok.inj hok
    exact ⟨"/admin/vehicles/" ++ id,
      (combine_api_withId "http://localhost:8000" "/admin/vehicles/" id
          "/api/admin/vehicles/" (by decide) (by decide)).trans
        (split_append "http://localhost:8000" "/api/admin/vehicles/"
          "http://localhost:8000/api" "/admin/vehicles/" id (by decide))⟩
  · intro id d r hok
    rw [ApiJs.call_api_resolves none _ rfl rfl] at hok
    obtain rfl := Except.ok.inj hok
    refine ⟨"/admin/blogs", ?_⟩
    show combineURLs (ApiJs.API_URL none ++ "/api") "/admin/blogs"
      = "http://localhost:8000/api" ++ "/admin/blogs"
    decide
  · intro id d r hok
    rw [ApiJs.call_api_resolves none _ rfl rfl] at hok
    obtain rfl := Except.ok.inj hok
    refine ⟨"/admin/blogs", ?_⟩
    show combineURLs (ApiJs.API_URL none ++ "/api") "/admin/blogs"
      = "http://localhost:8000/api" ++ "/admin/blogs"
    decide
  · intro id d r hok
    rw [ApiJs.call_api_resolves none _ rfl rfl] at hok
    obtain rfl := Except.ok.inj hok
    exact ⟨"/admin/blogs/" ++ id,
      (combine_api_withId "http://localhost:8000" "/admin/blogs/" id
          "/api/admin/blogs/" (by decide) (by decide)).trans
        (split_append "http://localhost:8000" "/api/admin/blogs/"
          "http://localhost:8000/api" "/admin/blogs/" id (by decide))⟩
  · intro id d r hok
    rw [ApiJs.call_api_resolves none _ rfl rfl] at hok
    obtain rfl := Except.ok.inj hok
    exact ⟨"/admin/blogs/" ++ id,
      (combine_api_withId "http://localhost:8000" "/admin/blogs/" id
          "/api/admin/blogs/" (by decide) (by decide)).trans
        (split_append "http://localhost:8000" "/api/admin/blogs/"
          "http://localhost:8000/api" "/admin/blogs/" id (by decide))⟩
  · intro id d r hok
    rw [ApiJs.call_API_errors none _ rfl rfl] at hok
    exact Except.noConfusion hok
  · intro id d r hok
    rw [ApiJs.call_API_errors none _ rfl rfl] at hok
    exact Except.noConfusion hok
  · intro id d r hok
    rw [ApiJs.call_API_errors none _ rfl rfl] at hok
    exact Except.noConfusion hok
  · intro id d r hok
    rw [ApiJs.call_API_errors none _ rfl rfl] at hok
    exact Except.noConfusion hok

/-- Witness for C9 at the concrete team-list request. -/
theorem claim_C9_witness :
    ∃ rest,
      ({ method := Method.GET,
         baseURL := some ("http://localhost:8000" ++ "/api"),
         path := "/admin/team", body := none, withCredentials := false,
         headers := [] } : Request).fullUrl
        = "http://localhost:8000/api" ++ rest :=
  claim_C9_default_base_url.2.2 ("fetchTeam", ApiJs.fetchTeam) (by decide)
    "" ""
    { method := Method.GET,
      baseURL := some ("http://localhost:8000" ++ "/api"),
      path := "/admin/team", body := none, withCredentials := false,
      headers := [] } (by decide)
